import Mathlib

/-!
Verification development for the silverblue-led-controller audio-to-light
pipeline.  The definitions below are a shallow embedding of the Python
sources `src/audio_sync.py` (classes `VibeEngine` and `AudioReactive`) and
`src/audio_sync_fusion.py` (class `SpectralComposer`).

Modelling conventions:
* Python floats are modelled by `ℚ`; the float literals of the source
  (0.99, 0.1, 1.5, ...) become the corresponding exact rationals.
* `time.time()` becomes an explicit `now : ℚ` argument (one instant per
  call of the modelled function).
* The magnitude spectrum `np.abs(np.fft.rfft(...))` is a transcendental
  computation over floats; the embedding takes the magnitude list (or the
  band sums derived from it) as the input of the analysis step, and models
  the frequency grid `np.fft.rfftfreq` and the band masks exactly.
  `np.fft.rfft` raises `ValueError` on an empty block; the embedding keeps
  that as an `Except` error which `audio_callback` swallows, exactly like
  the bare `try/except: pass` of the source.
* BLE I/O, device scanning, the asyncio plumbing and the socket server are
  external collaborators and are not modelled; `led_tick` models one body
  iteration of `SpectralComposer.led_loop` and returns the command that the
  iteration would send (the final `** 2.2` gamma and 8-bit scaling of the
  non-strobe frame are irrational and are left symbolic in `FCmd.pre`).
-/

/-- np.clip(x, lo, hi). -/
def clip (x lo hi : ℚ) : ℚ := min (max x lo) hi

/-- Python float modulo 1.0 (`x % 1.0`), always in [0,1). -/
def mod1 (x : ℚ) : ℚ := x - ⌊x⌋

/-- MAX_BRIGHTNESS = 0.7 (audio_sync.py line 22). -/
def MAX_BRIGHTNESS : ℚ := 7/10

/-- The three vibe states of `VibeEngine` ("CHILL" / "PARTY" / "RAGE");
the spec calls them CALM / ACTIVE / INTENSE. -/
inductive Vibe where
  | CHILL : Vibe
  | PARTY : Vibe
  | RAGE : Vibe
deriving DecidableEq

/-- State of `VibeEngine`: onset log, current vibe, last switch time. -/
structure VState where
  onsets : List ℚ
  current_vibe : Vibe
  last_switch : ℚ
deriving DecidableEq

/-- The list comprehension `[t for t in self.onsets if now - t < 5.0]`
(audio_sync.py line 38). -/
def prune (now : ℚ) : List ℚ → List ℚ
  | [] => []
  | t :: rest => if now - t < 5 then t :: prune now rest else prune now rest

/-- Python `list[-1]` as an `Option` (used for `self.onsets[-1]`). -/
def last? : List ℚ → Option ℚ
  | [] => none
  | [t] => some t
  | _ :: t :: rest => last? (t :: rest)

/-- Lines 37-39 of audio_sync.py: on a loud block (`energy_ratio > 1.5`)
prune the onset log to the trailing 5 s window and append `now` unless an
onset was already logged less than 0.1 s ago; on other blocks the log is
left untouched. -/
def onset_update (onsets : List ℚ) (now energy_ratio : ℚ) : List ℚ :=
  if energy_ratio > 3/2 then
    match last? (prune now onsets) with
    | none => prune now onsets ++ [now]
    | some t => if now - t > 1/10 then prune now onsets ++ [now] else prune now onsets
  else onsets

/-- `density = len(self.onsets) / 5.0` (audio_sync.py line 41). -/
def density (onsets : List ℚ) : ℚ := (onsets.length : ℚ) / 5

/-- Lines 44-47 of audio_sync.py: the vibe computed from the density
(the `new_vibe` default is always overwritten by the if/elif/else). -/
def classify (d : ℚ) : Vibe :=
  if d > 4 then Vibe.RAGE else if d > 1 then Vibe.PARTY else Vibe.CHILL

/-- `VibeEngine.analyze` (audio_sync.py lines 35-53): update the onset log,
and when the 10 s cooldown has elapsed and the computed vibe differs from
the current one, switch and reset `last_switch`. -/
def analyze (s : VState) (now energy_ratio : ℚ) : VState :=
  if now - s.last_switch > 10 then
    if classify (density (onset_update s.onsets now energy_ratio)) ≠ s.current_vibe then
      ⟨onset_update s.onsets now energy_ratio,
       classify (density (onset_update s.onsets now energy_ratio)), now⟩
    else ⟨onset_update s.onsets now energy_ratio, s.current_vibe, s.last_switch⟩
  else ⟨onset_update s.onsets now energy_ratio, s.current_vibe, s.last_switch⟩

/-- A sequence of `analyze` calls, each input a (time, energy_ratio) pair. -/
def vibeRun (s : VState) (tr : List (ℚ × ℚ)) : VState :=
  tr.foldl (fun st p => analyze st p.1 p.2) s

/-- True when none of the `analyze` calls of the trace changes the vibe. -/
def noChangeRun : VState → List (ℚ × ℚ) → Bool
  | _, [] => true
  | s, p :: rest =>
      decide ((analyze s p.1 p.2).current_vibe = s.current_vibe) &&
        noChangeRun (analyze s p.1 p.2) rest

/-- PALETTES_CHILL (audio_sync.py line 25). -/
def PALETTES_CHILL : List (List ℚ) :=
  [[1/2, 11/20, 3/5], [0, 1/20, 1/10], [1/4, 3/10, 7/20]]

/-- PALETTES_PARTY (audio_sync.py line 26). -/
def PALETTES_PARTY : List (List ℚ) :=
  [[4/5, 9/10, 0], [2/5, 1/2, 3/5], [1/10, 1/2, 9/10]]

/-- PALETTES_RAGE (audio_sync.py line 27). -/
def PALETTES_RAGE : List (List ℚ) :=
  [[0, 1/50, 49/50], [0, 0, 0]]

/-- The palette family selected by the current vibe (lines 142-144). -/
def palettes_of : Vibe → List (List ℚ)
  | Vibe.RAGE => PALETTES_RAGE
  | Vibe.PARTY => PALETTES_PARTY
  | Vibe.CHILL => PALETTES_CHILL

/-- `AudioReactive.get_color_from_vibe` (audio_sync.py lines 141-148):
select `palettes[self.current_palette_idx % len(palettes)]` and pick the
tercile bucket of the intensity. -/
def get_color_from_vibe (v : Vibe) (idx : ℕ) (intensity : ℚ) : ℚ :=
  let palette := (palettes_of v).getD (idx % (palettes_of v).length) []
  if intensity < 33/100 then palette.getD 0 0
  else if intensity < 66/100 then palette.getD 1 0
  else palette.getD 2 0

/-- State of `AudioReactive` (fields touched by the modelled pipeline;
the BLE handle, `running` and `last_flash_time` are I/O bookkeeping and
are omitted). -/
structure AState where
  vibe : VState
  current_brightness : ℚ
  target_brightness : ℚ
  current_hue : ℚ
  target_hue : ℚ
  current_sat : ℚ
  target_sat : ℚ
  current_palette_idx : ℕ
  palette_timer : ℚ
  avg_bass : ℚ
  peak_hold : ℚ
  hue_stack : List ℚ
  red_channel : ℚ
  override_mode : Bool
deriving DecidableEq

/-- `self.avg_bass * 0.99 + e_bass * 0.01` (audio_sync.py line 160). -/
def bass_avg (avg e_bass : ℚ) : ℚ := avg * (99/100) + e_bass * (1/100)

/-- `bass_ratio = e_bass / max(self.avg_bass, 0.1)` with the average
already updated (audio_sync.py lines 160-161). -/
def drive (avg e_bass : ℚ) : ℚ := e_bass / max (bass_avg avg e_bass) (1/10)

/-- The brightness drive target of lines 172-178: the idle floor 0.1 below
a drive ratio of 0.5, else `0.1 + clip(norm,0,1)**2 * 0.9` with
`norm = (ratio - 0.5) / 2`. -/
def target_bri_of (r : ℚ) : ℚ :=
  if r < 1/2 then 1/10 else 1/10 + clip ((r - 1/2) / 2) 0 1 ^ 2 * (9/10)

/-- Peak-hold update of lines 186-187: instant attack, 0.05-per-block
decay floored at zero. -/
def peak_update (peak target_bri : ℚ) : ℚ :=
  if target_bri > peak then target_bri else max (peak - 1/20) 0

/-- Line 191: `min(max(target_bri, self.peak_hold), 1.0) * MAX_BRIGHTNESS`. -/
def scale_brightness (target_bri peak : ℚ) : ℚ :=
  min (max target_bri peak) 1 * MAX_BRIGHTNESS

/-- Spectral centroid of the mid band with the 1e-6 guard (line 196):
`sum(freq*mag) / (sum(mag) + 1e-6)` over the mid-mask (freq, mag) pairs. -/
def centroid_of (mb : List (ℚ × ℚ)) : ℚ :=
  (mb.map (fun p => p.1 * p.2)).sum / ((mb.map (fun p => p.2)).sum + 1/1000000)

/-- `harmonic_pos = np.clip((centroid - 200) / 2800, 0.0, 1.0)` (line 197). -/
def harmonic_pos_of (mb : List (ℚ × ℚ)) : ℚ :=
  clip ((centroid_of mb - 200) / 2800) 0 1

/-- Lines 199-200: push the raw hue into the rolling buffer and drop the
oldest sample once the buffer exceeds 20 entries (`list.pop(0)`). -/
def hue_push (stack : List ℚ) (raw_hue : ℚ) : List ℚ :=
  if (stack ++ [raw_hue]).length > 20 then (stack ++ [raw_hue]).tail
  else stack ++ [raw_hue]

/-- `AudioReactive.process_audio` after the FFT stage (audio_sync.py lines
160-204), taking the bass band energy and the mid-band (freq, magnitude)
pairs as inputs.  Field by field it follows the source: vibe analysis,
brightness drive with peak-hold and MAX_BRIGHTNESS scaling, the RAGE red
channel, the PARTY pastel saturation, the gated rolling hue average, and
the gated palette rotation. -/
def process_core (s : AState) (now e_bass : ℚ) (mb : List (ℚ × ℚ)) : AState :=
  let r := drive s.avg_bass e_bass
  let vs := analyze s.vibe now r
  let tbri := target_bri_of r
  let pk := peak_update s.peak_hold tbri
  let tb := scale_brightness tbri pk
  let rc := if r < 1/2 then 0
    else if vs.current_vibe = Vibe.RAGE ∧ tbri > 2/5 then (tbri - 2/5) * 2 else 0
  let ts := if r < 1/2 then 1
    else if vs.current_vibe = Vibe.PARTY then 1 - clip ((r - 1/2) / 2 * (7/10)) 0 (7/10)
    else 1
  let raw_hue := get_color_from_vibe vs.current_vibe s.current_palette_idx (harmonic_pos_of mb)
  let hs := if tb < (1/5) * MAX_BRIGHTNESS ∧ mb ≠ [] then hue_push s.hue_stack raw_hue
    else s.hue_stack
  let th := if tb < (1/5) * MAX_BRIGHTNESS ∧ mb ≠ [] then hs.sum / (hs.length : ℚ)
    else s.target_hue
  { vibe := vs,
    current_brightness := s.current_brightness,
    target_brightness := tb,
    current_hue := s.current_hue,
    target_hue := th,
    current_sat := s.current_sat,
    target_sat := ts,
    current_palette_idx :=
      if now - s.palette_timer > 60 ∧ tb < 1/5 then s.current_palette_idx + 1
      else s.current_palette_idx,
    palette_timer :=
      if now - s.palette_timer > 60 ∧ tb < 1/5 then now else s.palette_timer,
    avg_bass := bass_avg s.avg_bass e_bass,
    peak_hold := pk,
    hue_stack := hs,
    red_channel := rc,
    override_mode := s.override_mode }

/-- Keep the (freq, mag) pairs whose frequency lies strictly inside
(lo, hi): the numpy boolean band masks of lines 156-157. -/
def band_filter (lo hi : ℚ) : List (ℚ × ℚ) → List (ℚ × ℚ)
  | [] => []
  | p :: rest =>
      if lo < p.1 ∧ p.1 < hi then p :: band_filter lo hi rest else band_filter lo hi rest

/-- `np.fft.rfftfreq(n, 1/rate)` zipped with the magnitude spectrum:
bin k has frequency `k * rate / n`. -/
def bins_of (n : ℕ) (rate : ℚ) (mag : List ℚ) : List (ℚ × ℚ) :=
  ((List.range mag.length).map (fun k => (k : ℚ) * rate / (n : ℚ))).zip mag

/-- The bass-mask bins (40 Hz, 150 Hz) of line 156. -/
def bass_bins_of (n : ℕ) (rate : ℚ) (mag : List ℚ) : List (ℚ × ℚ) :=
  band_filter 40 150 (bins_of n rate mag)

/-- `e_bass = np.sum(fft_data[mask_bass]) if np.any(mask_bass) else 0`
(line 158). -/
def e_bass_of (n : ℕ) (rate : ℚ) (mag : List ℚ) : ℚ :=
  if bass_bins_of n rate mag ≠ [] then ((bass_bins_of n rate mag).map (fun p => p.2)).sum
  else 0

/-- The mid-mask bins (200 Hz, 3000 Hz) of line 157. -/
def mid_bins_of (n : ℕ) (rate : ℚ) (mag : List ℚ) : List (ℚ × ℚ) :=
  band_filter 200 3000 (bins_of n rate mag)

/-- `AudioReactive.process_audio` from the top (lines 150-204): the
override early-return, then the FFT stage.  `np.fft.rfft` raises
`ValueError` on an empty block (n = 0), modelled as the error case; the
magnitude spectrum `mag` of a nonempty block is an input (it is a
transcendental function of the samples). -/
def process_block (s : AState) (now : ℚ) (n : ℕ) (rate : ℚ) (mag : List ℚ) :
    Except Unit AState :=
  if s.override_mode then Except.ok s
  else if n = 0 then Except.error ()
  else Except.ok (process_core s now (e_bass_of n rate mag) (mid_bins_of n rate mag))

/-- `AudioReactive.audio_callback` (lines 206-208): run `process_audio`
and swallow any exception, leaving the state as it was. -/
def audio_callback (s : AState) (now : ℚ) (n : ℕ) (rate : ℚ) (mag : List ℚ) : AState :=
  match process_block s now n rate mag with
  | Except.ok s' => s'
  | Except.error _ => s

/-- The signed shortest circular hue difference of the render loops
(audio_sync.py lines 248-250, audio_sync_fusion.py lines 151-153):
`diff = target - current`, wrapped into [-1/2, 1/2]. -/
def wrap_diff (c t : ℚ) : ℚ :=
  if t - c > 1/2 then t - c - 1
  else if t - c < -(1/2) then t - c + 1
  else t - c

/-- One hue interpolation tick with smoothing fraction `f`:
`current = (current + diff * f) % 1.0` (audio_sync.py line 251 with
f = 0.02, audio_sync_fusion.py line 154 with f = 0.05). -/
def hueStep (f c t : ℚ) : ℚ := mod1 (c + wrap_diff c t * f)

/-- `n` hue interpolation ticks toward a constant target `t`. -/
def hueIter (f t : ℚ) : ℕ → ℚ → ℚ
  | 0, c => c
  | n + 1, c => hueIter f t n (hueStep f c t)

/-- Circular distance on the hue circle [0,1): the length of the shorter
arc between `a` and `b`. -/
def circDist (a b : ℚ) : ℚ := min (mod1 (a - b)) (1 - mod1 (a - b))

/-- Modelled from the spec: the "circular-aware average" of a buffer of
hues on the circle [0,1) (the code's plain arithmetic mean is to be
compared against it).  Every sample is unwrapped to the representative
within half a turn of the first sample, the representatives are averaged,
and the mean is reduced mod 1. -/
def circ_aware_avg : List ℚ → ℚ
  | [] => 0
  | h :: rest =>
      let reprs := h :: rest.map (fun x =>
        if x - h > 1/2 then x - 1 else if h - x > 1/2 then x + 1 else x)
      mod1 (reprs.sum / (reprs.length : ℚ))

/-- State of `SpectralComposer` (audio_sync_fusion.py lines 44-61; the BLE
handle, `running` and the unused `harmonic_stability` are omitted). -/
structure FState where
  env_bass : ℚ
  env_mid : ℚ
  env_high : ℚ
  current_hue : ℚ
  target_hue : ℚ
  chaos_counter : ℕ
  last_strobe : ℚ
  strobe_active : Bool
deriving DecidableEq

/-- SENSITIVITY = 1.2 (audio_sync_fusion.py line 14). -/
def SENSITIVITY : ℚ := 6/5

/-- DECAY_RATE = 0.15 (audio_sync_fusion.py line 15). -/
def DECAY_RATE : ℚ := 3/20

/-- VOCAL_SHIMMER_AMOUNT = 0.4 (audio_sync_fusion.py line 16). -/
def VOCAL_SHIMMER_AMOUNT : ℚ := 2/5

/-- `e_mid = np.sum(fft[mask_mid]) if np.any(mask_mid) else 0` (line 85),
expressed over the mid-mask (freq, mag) pairs. -/
def mid_raw (mb : List (ℚ × ℚ)) : ℚ :=
  if mb ≠ [] then (mb.map (fun p => p.2)).sum else 0

/-- `np.clip(e_bass / 10.0, 0, 1.0) * SENSITIVITY` (line 89). -/
def fusion_norm_bass (e : ℚ) : ℚ := clip (e / 10) 0 1 * SENSITIVITY

/-- `np.clip(e_mid / 8.0, 0, 1.0) * SENSITIVITY` (line 90). -/
def fusion_norm_mid (e : ℚ) : ℚ := clip (e / 8) 0 1 * SENSITIVITY

/-- `np.clip(e_high / 5.0, 0, 1.0) * SENSITIVITY` (line 91). -/
def fusion_norm_high (e : ℚ) : ℚ := clip (e / 5) 0 1 * SENSITIVITY

/-- `self.env_bass = max(e_bass, self.env_bass - DECAY_RATE)` (line 95). -/
def env_bass_after (s : FState) (e_bass_raw : ℚ) : ℚ :=
  max (fusion_norm_bass e_bass_raw) (s.env_bass - DECAY_RATE)

/-- `self.env_mid = max(e_mid, self.env_mid - DECAY_RATE)` (line 96). -/
def env_mid_after (s : FState) (mb : List (ℚ × ℚ)) : ℚ :=
  max (fusion_norm_mid (mid_raw mb)) (s.env_mid - DECAY_RATE)

/-- `self.env_high = max(e_high, self.env_high - DECAY_RATE*2)` (line 97). -/
def env_high_after (s : FState) (e_high_raw : ℚ) : ℚ :=
  max (fusion_norm_high e_high_raw) (s.env_high - DECAY_RATE * 2)

/-- The mid-band centroid of line 102 (no epsilon guard; the branch is
guarded by `e_mid > 0.1`). -/
def fusion_centroid (mb : List (ℚ × ℚ)) : ℚ :=
  (mb.map (fun p => p.1 * p.2)).sum / (mb.map (fun p => p.2)).sum

/-- Lines 100-117: the harmonic hue target, updated only when the mid mask
is nonempty and the normalized mid energy exceeds 0.1. -/
def fusion_hue_target (s : FState) (mb : List (ℚ × ℚ)) : ℚ :=
  if mb ≠ [] ∧ fusion_norm_mid (mid_raw mb) > 1/10 then
    if 13/20 - clip ((fusion_centroid mb - 200) / 1500) 0 1 * (3/5) < 0 then
      13/20 - clip ((fusion_centroid mb - 200) / 1500) 0 1 * (3/5) + 1
    else 13/20 - clip ((fusion_centroid mb - 200) / 1500) 0 1 * (3/5)
  else s.target_hue

/-- Lines 120-124: the chaos counter after one block: incremented when
`env_bass + env_mid > 2.5`, else decremented and floored at 0 (the floor
is ℕ truncated subtraction). -/
def chaos_after (s : FState) (e_bass_raw : ℚ) (mb : List (ℚ × ℚ)) : ℕ :=
  if env_bass_after s e_bass_raw + env_mid_after s mb > 5/2 then s.chaos_counter + 1
  else s.chaos_counter - 1

/-- `SpectralComposer.process_audio` (audio_sync_fusion.py lines 74-129)
over the band inputs: the bass and high band sums and the mid-mask
(freq, mag) pairs.  The strobe arms (lines 126-129) when the updated
chaos counter exceeds 5 and more than 5 s have passed since the last
strobe; arming resets the counter and stamps `last_strobe`. -/
def fusion_process (s : FState) (now e_bass_raw e_high_raw : ℚ)
    (mb : List (ℚ × ℚ)) : FState :=
  if chaos_after s e_bass_raw mb > 5 ∧ now - s.last_strobe > 5 then
    { env_bass := env_bass_after s e_bass_raw,
      env_mid := env_mid_after s mb,
      env_high := env_high_after s e_high_raw,
      current_hue := s.current_hue,
      target_hue := fusion_hue_target s mb,
      chaos_counter := 0,
      last_strobe := now,
      strobe_active := true }
  else
    { env_bass := env_bass_after s e_bass_raw,
      env_mid := env_mid_after s mb,
      env_high := env_high_after s e_high_raw,
      current_hue := s.current_hue,
      target_hue := fusion_hue_target s mb,
      chaos_counter := chaos_after s e_bass_raw mb,
      last_strobe := s.last_strobe,
      strobe_active := s.strobe_active }

/-- `colorsys.hsv_to_rgb`; for `h ∈ [0,1)` the `int(h*6)` truncation is
the floor. -/
def hsvToRgb (h s v : ℚ) : ℚ × ℚ × ℚ :=
  if s = 0 then (v, v, v)
  else
    let i : ℤ := ⌊h * 6⌋
    let f := h * 6 - (i : ℚ)
    let p := v * (1 - s)
    let q := v * (1 - s * f)
    let t := v * (1 - s * (1 - f))
    match (i % 6).toNat with
    | 0 => (v, t, p)
    | 1 => (q, v, p)
    | 2 => (p, v, t)
    | 3 => (p, q, v)
    | 4 => (t, p, v)
    | _ => (v, q, p)

/-- The command one `led_loop` iteration sends: the single pure-white
strobe frame `set_rgb((255,255,255))`, or the composed colour frame
before the final `** 2.2` gamma and 8-bit scaling. -/
inductive FCmd where
  | white : FCmd
  | pre (r g b : ℚ) : FCmd
deriving DecidableEq

/-- One body iteration of `SpectralComposer.led_loop` (audio_sync_fusion.py
lines 141-190): when the strobe is armed, emit the white frame, clear the
flag and skip the rest (`continue`); otherwise step the hue by the 0.05
smoothing fraction and compose the bass / harmony / shimmer layers. -/
def led_tick (s : FState) : FCmd × FState :=
  if s.strobe_active then (FCmd.white, { s with strobe_active := false })
  else
    let ch := hueStep (1/20) s.current_hue s.target_hue
    let rgb := hsvToRgb ch (1 - s.env_mid * (3/10)) s.env_mid
    let shimmer := s.env_high * VOCAL_SHIMMER_AMOUNT
    let r := s.env_bass + rgb.1 + shimmer
    let g := 0 + rgb.2.1 + shimmer
    let b := 0 + rgb.2.2 + shimmer
    if max r (max g b) < 1/20 then (FCmd.pre 0 0 0, { s with current_hue := ch })
    else (FCmd.pre (min 1 r) (min 1 g) (min 1 b), { s with current_hue := ch })

/-! ## Helper lemmas -/

theorem analyze_step (s : VState) (now r : ℚ) :
    ((analyze s now r).current_vibe ≠ s.current_vibe →
      (analyze s now r).last_switch = now ∧ now - s.last_switch > 10) ∧
    ((analyze s now r).current_vibe = s.current_vibe →
      (analyze s now r).last_switch = s.last_switch) := by
  unfold analyze
  split_ifs with h1 h2
  · exact ⟨fun _ => ⟨rfl, h1⟩, fun hv => absurd hv h2⟩
  · exact ⟨fun hv => absurd rfl hv, fun _ => rfl⟩
  · exact ⟨fun hv => absurd rfl hv, fun _ => rfl⟩

theorem vibeRun_no_change (mid : List (ℚ × ℚ)) : ∀ s : VState,
    noChangeRun s mid = true → (vibeRun s mid).last_switch = s.last_switch := by
  induction mid with
  | nil => intro s _; rfl
  | cons p rest ih =>
      intro s h
      simp only [noChangeRun, Bool.and_eq_true, decide_eq_true_eq] at h
      calc (vibeRun s (p :: rest)).last_switch
          = (vibeRun (analyze s p.1 p.2) rest).last_switch := rfl
        _ = (analyze s p.1 p.2).last_switch := ih _ h.2
        _ = s.last_switch := (analyze_step s p.1 p.2).2 h.1

theorem prune_mem (now : ℚ) : ∀ (l : List ℚ) (t : ℚ), t ∈ prune now l → now - t < 5 := by
  intro l
  induction l with
  | nil => intro t ht; simp [prune] at ht
  | cons a rest ih =>
      intro t ht
      by_cases h : now - a < 5
      · rw [prune, if_pos h] at ht
        rcases List.mem_cons.mp ht with h1 | h1
        · exact h1 ▸ h
        · exact ih t h1
      · rw [prune, if_neg h] at ht
        exact ih t ht

/-- Claim C2: across any sequence of analyze calls, two successive mood
changes are separated by more than the 10 s cooldown, and the cooldown
timer is reset exactly when the computed vibe differs from the current one
(re-affirming the same state leaves the timer untouched). -/
theorem vibe_cooldown (s1 : VState) (x y : ℚ × ℚ) (mid : List (ℚ × ℚ))
    (hchg1 : (analyze s1 x.1 x.2).current_vibe ≠ s1.current_vibe)
    (hmid : noChangeRun (analyze s1 x.1 x.2) mid = true)
    (hchg2 : (analyze (vibeRun (analyze s1 x.1 x.2) mid) y.1 y.2).current_vibe ≠
      (vibeRun (analyze s1 x.1 x.2) mid).current_vibe) :
    y.1 - x.1 > 10 ∧ (analyze s1 x.1 x.2).last_switch = x.1 ∧
    (∀ (s : VState) (now r : ℚ),
      ((analyze s now r).current_vibe ≠ s.current_vibe →
        (analyze s now r).last_switch = now ∧ now - s.last_switch > 10) ∧
      ((analyze s now r).current_vibe = s.current_vibe →
        (analyze s now r).last_switch = s.last_switch)) := by
  have hx := (analyze_step s1 x.1 x.2).1 hchg1
  have hmid' := vibeRun_no_change mid (analyze s1 x.1 x.2) hmid
  have hy := (analyze_step (vibeRun (analyze s1 x.1 x.2) mid) y.1 y.2).1 hchg2
  refine ⟨?_, hx.1, fun s now r => analyze_step s now r⟩
  have h10 := hy.2
  rw [hmid', hx.1] at h10
  linarith

theorem vibe_cooldown_witness :
    (23 : ℚ) - 12 > 10 ∧
    (analyze (vibeRun (⟨[], Vibe.CHILL, 0⟩ : VState)
      [(11, 2), (56/5, 2), (57/5, 2), (58/5, 2), (59/5, 2)]) 12 2).last_switch = 12 :=
  have h := vibe_cooldown
    (vibeRun (⟨[], Vibe.CHILL, 0⟩ : VState)
      [(11, 2), (56/5, 2), (57/5, 2), (58/5, 2), (59/5, 2)]) (12, 2) (23, 2) []
    (by norm_num [vibeRun, analyze, onset_update, density, classify, prune, last?] <;>
      try simp <;> try norm_num <;> try decide)
    (by norm_num [noChangeRun])
    (by norm_num [vibeRun, analyze, onset_update, density, classify, prune, last?] <;>
      try simp <;> try norm_num <;> try decide)
  ⟨h.1, h.2.1⟩

/-- Claim C3 counterexample: on a quiet block (energy ratio 0 is not above
the 1.5 trigger) the onset log is not pruned, so the density that drives
the classification still counts a 100 s old onset; here six stale onsets
make analyze switch the vibe to PARTY. -/
theorem stale_onset_counted :
    (analyze (⟨[0, 1/5, 2/5, 3/5, 4/5, 1], Vibe.CHILL, 50⟩ : VState) 100 0).current_vibe =
      Vibe.PARTY ∧
    onset_update [0, 1/5, 2/5, 3/5, 4/5, 1] 100 0 = [0, 1/5, 2/5, 3/5, 4/5, 1] ∧
    ¬ ((100 : ℚ) - 0 < 5) := by
  refine ⟨?_, ?_, by norm_num⟩
  · norm_num [analyze, onset_update, density, classify] <;> try simp <;> try norm_num <;>
      try decide
  · norm_num [onset_update]

/-- Claim C3 (amended): after a pruning pass, which happens exactly on the
blocks whose energy ratio exceeds the 1.5 trigger, every timestamp of the
onset log lies within the trailing 5 s window; on other blocks the log
(and hence the density) may retain older entries. -/
theorem onset_pruned_when_triggered (onsets : List ℚ) (now r : ℚ) (hr : r > 3/2) :
    ∀ t ∈ onset_update onsets now r, now - t < 5 := by
  intro t ht
  rw [onset_update, if_pos hr] at ht
  split at ht
  · rcases List.mem_append.mp ht with h1 | h1
    · exact prune_mem now onsets t h1
    · rw [List.mem_singleton.mp h1]; norm_num
  · split_ifs at ht
    · rcases List.mem_append.mp ht with h1 | h1
      · exact prune_mem now onsets t h1
      · rw [List.mem_singleton.mp h1]; norm_num
    · exact prune_mem now onsets t ht

theorem onset_pruned_when_triggered_witness :
    onset_update [0, 97] 100 2 = [97, 100] ∧
    (100 : ℚ) - 97 < 5 ∧ (100 : ℚ) - 100 < 5 :=
  ⟨by norm_num [onset_update, prune, last?],
   onset_pruned_when_triggered [0, 97] 100 2 (by norm_num) 97
     (by norm_num [onset_update, prune, last?]),
   onset_pruned_when_triggered [0, 97] 100 2 (by norm_num) 100
     (by norm_num [onset_update, prune, last?])⟩

theorem target_bri_lb (r : ℚ) : 1/10 ≤ target_bri_of r := by
  unfold target_bri_of
  split_ifs
  · exact le_refl _
  · nlinarith [sq_nonneg (clip ((r - 1/2) / 2) 0 1)]

theorem scale_brightness_bounds (tbri pk : ℚ) (h : 1/10 ≤ tbri) :
    0 ≤ scale_brightness tbri pk ∧ scale_brightness tbri pk ≤ MAX_BRIGHTNESS := by
  unfold scale_brightness MAX_BRIGHTNESS
  have h1 : 0 ≤ min (max tbri pk) 1 :=
    le_min (le_trans (by linarith) (le_max_left _ _)) zero_le_one
  have h2 : min (max tbri pk) 1 ≤ 1 := min_le_right _ _
  constructor <;> nlinarith

/-- Claim C1 counterexample: with the running bass average at 10, a silent
block has drive ratio 0 < 0.5, yet the brightness target stored by
process_audio is 0.07 (the idle floor combined with peak-hold and scaled
by MAX_BRIGHTNESS), not the idle floor 0.1 itself. -/
theorem idle_floor_claim_counterexample :
    drive 10 0 < 1/2 ∧
    (process_core (⟨⟨[], Vibe.CHILL, 0⟩, 0, 0, 0, 0, 1, 1, 0, 0, 10, 0, [], 0, false⟩ : AState)
      0 0 []).target_brightness ≠ 1/10 := by
  constructor
  · norm_num [drive, bass_avg]
  · norm_num [process_core, drive, bass_avg, target_bri_of, peak_update, scale_brightness,
      clip, MAX_BRIGHTNESS]

/-- Claim C1 (amended): for every audio block whose bass drive ratio is
below the 0.5 floor, the intermediate brightness drive target is the idle
floor 0.1 regardless of hue or mood, and the stored target brightness is
that floor combined with the decayed peak-hold and scaled by
MAX_BRIGHTNESS: `min(max(0.1, peak_hold'), 1) * 0.7`. -/
theorem idle_floor_below_drive (s : AState) (now e_bass : ℚ) (mb : List (ℚ × ℚ))
    (h : drive s.avg_bass e_bass < 1/2) :
    target_bri_of (drive s.avg_bass e_bass) = 1/10 ∧
    (process_core s now e_bass mb).peak_hold = peak_update s.peak_hold (1/10) ∧
    (process_core s now e_bass mb).target_brightness =
      min (max (1/10) (peak_update s.peak_hold (1/10))) 1 * MAX_BRIGHTNESS := by
  have ht : target_bri_of (drive s.avg_bass e_bass) = 1/10 := by
    rw [target_bri_of, if_pos h]
  refine ⟨ht, ?_, ?_⟩
  · simp only [process_core, ht]
  · simp only [process_core, ht, scale_brightness]

theorem idle_floor_below_drive_witness :
    target_bri_of (drive 10 0) = 1/10 ∧
    (process_core (⟨⟨[], Vibe.CHILL, 0⟩, 0, 0, 0, 0, 1, 1, 0, 0, 10, 0, [], 0, false⟩ : AState)
      0 0 []).peak_hold = peak_update 0 (1/10) ∧
    (process_core (⟨⟨[], Vibe.CHILL, 0⟩, 0, 0, 0, 0, 1, 1, 0, 0, 10, 0, [], 0, false⟩ : AState)
      0 0 []).target_brightness = min (max (1/10) (peak_update 0 (1/10))) 1 * MAX_BRIGHTNESS :=
  idle_floor_below_drive
    (⟨⟨[], Vibe.CHILL, 0⟩, 0, 0, 0, 0, 1, 1, 0, 0, 10, 0, [], 0, false⟩ : AState) 0 0 []
    (by norm_num [drive, bass_avg])

/-- Claim C9: the brightness target written by process_audio always lies
in [0, MAX_BRIGHTNESS] with MAX_BRIGHTNESS = 0.7, and the audio callback
(which swallows analysis errors and honours the override early-return)
preserves that bound. -/
theorem brightness_bounded :
    (∀ (s : AState) (now e_bass : ℚ) (mb : List (ℚ × ℚ)),
      0 ≤ (process_core s now e_bass mb).target_brightness ∧
      (process_core s now e_bass mb).target_brightness ≤ MAX_BRIGHTNESS) ∧
    (∀ (s : AState) (now : ℚ) (n : ℕ) (rate : ℚ) (mag : List ℚ),
      0 ≤ s.target_brightness → s.target_brightness ≤ MAX_BRIGHTNESS →
      0 ≤ (audio_callback s now n rate mag).target_brightness ∧
      (audio_callback s now n rate mag).target_brightness ≤ MAX_BRIGHTNESS) := by
  have hcore : ∀ (s : AState) (now e_bass : ℚ) (mb : List (ℚ × ℚ)),
      0 ≤ (process_core s now e_bass mb).target_brightness ∧
      (process_core s now e_bass mb).target_brightness ≤ MAX_BRIGHTNESS := by
    intro s now e_bass mb
    have := scale_brightness_bounds (target_bri_of (drive s.avg_bass e_bass))
      (peak_update s.peak_hold (target_bri_of (drive s.avg_bass e_bass)))
      (target_bri_lb _)
    simpa only [process_core] using this
  refine ⟨hcore, ?_⟩
  intro s now n rate mag h0 h1
  unfold audio_callback process_block
  split_ifs with hov hn
  · exact ⟨h0, h1⟩
  · exact ⟨h0, h1⟩
  · exact hcore s now _ _

theorem brightness_bounded_witness :
    (0 ≤ (process_core (⟨⟨[], Vibe.CHILL, 0⟩, 0, 0, 0, 0, 1, 1, 0, 0, 10, 0, [], 0,
        false⟩ : AState) 0 0 []).target_brightness ∧
      (process_core (⟨⟨[], Vibe.CHILL, 0⟩, 0, 0, 0, 0, 1, 1, 0, 0, 10, 0, [], 0,
        false⟩ : AState) 0 0 []).target_brightness ≤ MAX_BRIGHTNESS) ∧
    (0 ≤ (audio_callback (⟨⟨[], Vibe.CHILL, 0⟩, 0, 0, 0, 0, 1, 1, 0, 0, 10, 0, [], 0,
        false⟩ : AState) 0 0 44100 []).target_brightness ∧
      (audio_callback (⟨⟨[], Vibe.CHILL, 0⟩, 0, 0, 0, 0, 1, 1, 0, 0, 10, 0, [], 0,
        false⟩ : AState) 0 0 44100 []).target_brightness ≤ MAX_BRIGHTNESS) :=
  ⟨brightness_bounded.1 (⟨⟨[], Vibe.CHILL, 0⟩, 0, 0, 0, 0, 1, 1, 0, 0, 10, 0, [], 0,
      false⟩ : AState) 0 0 [],
   brightness_bounded.2 (⟨⟨[], Vibe.CHILL, 0⟩, 0, 0, 0, 0, 1, 1, 0, 0, 10, 0, [], 0,
      false⟩ : AState) 0 0 44100 [] (by norm_num) (by norm_num [MAX_BRIGHTNESS])⟩

/-- Claim C10: whenever the stored brightness target reaches 0.2 times
MAX_BRIGHTNESS or more, process_audio leaves the hue target and the
rolling hue buffer untouched: the hue chase is frozen while bright. -/
theorem hue_frozen_when_bright (s : AState) (now e_bass : ℚ) (mb : List (ℚ × ℚ))
    (h : (1/5) * MAX_BRIGHTNESS ≤ (process_core s now e_bass mb).target_brightness) :
    (process_core s now e_bass mb).target_hue = s.target_hue ∧
    (process_core s now e_bass mb).hue_stack = s.hue_stack := by
  simp only [process_core] at h ⊢
  have hnc : ¬ (scale_brightness (target_bri_of (drive s.avg_bass e_bass))
      (peak_update s.peak_hold (target_bri_of (drive s.avg_bass e_bass))) <
        (1/5) * MAX_BRIGHTNESS ∧ mb ≠ []) :=
    fun hc => absurd hc.1 (not_lt.mpr h)
  rw [if_neg hnc, if_neg hnc]
  exact ⟨rfl, rfl⟩

/-- Claim C7: the palette rotation index advances only when more than 60 s
have elapsed since the last rotation and the stored brightness target is
below the 0.2 dark threshold; each advance is an increment, stamps the
rotation timer, and (because `get_color_from_vibe` indexes palettes by
`idx % len`) advances the selected palette by one modulo each palette
family's length. -/
theorem palette_rotation_gated (s : AState) (now e_bass : ℚ) (mb : List (ℚ × ℚ))
    (h : (process_core s now e_bass mb).current_palette_idx ≠ s.current_palette_idx) :
    now - s.palette_timer > 60 ∧
    (process_core s now e_bass mb).target_brightness < 1/5 ∧
    (process_core s now e_bass mb).current_palette_idx = s.current_palette_idx + 1 ∧
    (process_core s now e_bass mb).palette_timer = now ∧
    (∀ v : Vibe, (process_core s now e_bass mb).current_palette_idx % (palettes_of v).length
      = (s.current_palette_idx + 1) % (palettes_of v).length) := by
  simp only [process_core] at h ⊢
  split_ifs at h ⊢ with hrot
  · exact ⟨hrot.1, hrot.2, rfl, rfl, fun v => rfl⟩
  · exact absurd rfl h

theorem palette_rotation_gated_witness :
    (61 : ℚ) - 0 > 60 ∧
    (process_core (⟨⟨[], Vibe.CHILL, 0⟩, 0, 0, 0, 0, 1, 1, 0, 0, 10, 0, [], 0,
      false⟩ : AState) 61 0 []).target_brightness < 1/5 ∧
    (process_core (⟨⟨[], Vibe.CHILL, 0⟩, 0, 0, 0, 0, 1, 1, 0, 0, 10, 0, [], 0,
      false⟩ : AState) 61 0 []).current_palette_idx = 0 + 1 ∧
    (process_core (⟨⟨[], Vibe.CHILL, 0⟩, 0, 0, 0, 0, 1, 1, 0, 0, 10, 0, [], 0,
      false⟩ : AState) 61 0 []).palette_timer = 61 ∧
    (∀ v : Vibe, (process_core (⟨⟨[], Vibe.CHILL, 0⟩, 0, 0, 0, 0, 1, 1, 0, 0, 10, 0, [], 0,
      false⟩ : AState) 61 0 []).current_palette_idx % (palettes_of v).length
      = (0 + 1) % (palettes_of v).length) :=
  palette_rotation_gated
    (⟨⟨[], Vibe.CHILL, 0⟩, 0, 0, 0, 0, 1, 1, 0, 0, 10, 0, [], 0, false⟩ : AState) 61 0 []
    (by norm_num [process_core, drive, bass_avg, target_bri_of, peak_update,
      scale_brightness, clip, MAX_BRIGHTNESS, analyze, onset_update, density, classify,
      prune, last?] <;> try simp <;> try norm_num <;> try decide)

theorem hue_push_length_le (stack : List ℚ) (raw_hue : ℚ) (h : stack.length ≤ 20) :
    (hue_push stack raw_hue).length ≤ 20 := by
  rw [hue_push]
  split_ifs with h1
  · simp only [List.length_tail, List.length_append, List.length_singleton]
    omega
  · simp only [List.length_append, List.length_singleton] at h1 ⊢
    omega

/-- Claim C4 counterexample: with the RAGE palette, a buffer holding the
hues 0.98 and 0.02 (circular distance 0.04 apart, both within 0.02 of hue
0) is averaged by the code to 0.5 - the plain arithmetic mean, at circular
distance 0.48 from both samples - while the circular-aware average of the
buffer is 0. -/
theorem hue_average_not_circular :
    (process_core (⟨⟨[], Vibe.RAGE, 0⟩, 0, 0, 0, 0, 1, 1, 0, 0, 10, 0, [49/50], 0,
      false⟩ : AState) 0 0 [(1600, 1)]).hue_stack = [49/50, 1/50] ∧
    (process_core (⟨⟨[], Vibe.RAGE, 0⟩, 0, 0, 0, 0, 1, 1, 0, 0, 10, 0, [49/50], 0,
      false⟩ : AState) 0 0 [(1600, 1)]).target_hue = 1/2 ∧
    circ_aware_avg [49/50, 1/50] = 0 ∧
    circDist (49/50) (1/50) = 1/25 ∧
    circDist (1/2) (49/50) = 12/25 ∧
    (process_core (⟨⟨[], Vibe.RAGE, 0⟩, 0, 0, 0, 0, 1, 1, 0, 0, 10, 0, [49/50], 0,
      false⟩ : AState) 0 0 [(1600, 1)]).target_hue ≠
      circ_aware_avg ((process_core (⟨⟨[], Vibe.RAGE, 0⟩, 0, 0, 0, 0, 1, 1, 0, 0, 10, 0,
        [49/50], 0, false⟩ : AState) 0 0 [(1600, 1)]).hue_stack) := by
  have hstack : (process_core (⟨⟨[], Vibe.RAGE, 0⟩, 0, 0, 0, 0, 1, 1, 0, 0, 10, 0, [49/50],
      0, false⟩ : AState) 0 0 [(1600, 1)]).hue_stack = [49/50, 1/50] := by
    norm_num [process_core, drive, bass_avg, target_bri_of, peak_update, scale_brightness,
      clip, MAX_BRIGHTNESS, analyze, onset_update, density, classify, prune, last?,
      get_color_from_vibe, palettes_of, PALETTES_RAGE, harmonic_pos_of, centroid_of,
      hue_push]
  have hhue : (process_core (⟨⟨[], Vibe.RAGE, 0⟩, 0, 0, 0, 0, 1, 1, 0, 0, 10, 0, [49/50],
      0, false⟩ : AState) 0 0 [(1600, 1)]).target_hue = 1/2 := by
    norm_num [process_core, drive, bass_avg, target_bri_of, peak_update, scale_brightness,
      clip, MAX_BRIGHTNESS, analyze, onset_update, density, classify, prune, last?,
      get_color_from_vibe, palettes_of, PALETTES_RAGE, harmonic_pos_of, centroid_of,
      hue_push]
  have hcirc : circ_aware_avg [49/50, 1/50] = 0 := by
    norm_num [circ_aware_avg, mod1]
  refine ⟨hstack, hhue, hcirc, ?_, ?_, ?_⟩
  · norm_num [circDist, mod1]
  · norm_num [circDist, mod1]
  · rw [hstack, hhue, hcirc]; norm_num

/-- Claim C4 (amended): whenever the hue branch runs (stored brightness
target below 0.2 of MAX_BRIGHTNESS and a nonempty mid band), the hue target
is the plain arithmetic mean - not a circular-aware average - of the
rolling buffer, and the buffer never grows past 20 samples. -/
theorem hue_mean_and_capacity (s : AState) (now e_bass : ℚ) (mb : List (ℚ × ℚ)) :
    ((process_core s now e_bass mb).target_brightness < (1/5) * MAX_BRIGHTNESS → mb ≠ [] →
      (process_core s now e_bass mb).target_hue =
        ((process_core s now e_bass mb).hue_stack).sum /
          (((process_core s now e_bass mb).hue_stack).length : ℚ)) ∧
    (s.hue_stack.length ≤ 20 → (process_core s now e_bass mb).hue_stack.length ≤ 20) := by
  constructor
  · intro h1 h2
    simp only [process_core] at h1 ⊢
    rw [if_pos ⟨h1, h2⟩, if_pos ⟨h1, h2⟩]
  · intro hlen
    simp only [process_core]
    split_ifs with h
    · exact hue_push_length_le s.hue_stack _ hlen
    · exact hlen

theorem hue_mean_and_capacity_witness :
    (process_core (⟨⟨[], Vibe.RAGE, 0⟩, 0, 0, 0, 0, 1, 1, 0, 0, 10, 0, [49/50], 0,
      false⟩ : AState) 0 0 [(1600, 1)]).target_hue =
      ((process_core (⟨⟨[], Vibe.RAGE, 0⟩, 0, 0, 0, 0, 1, 1, 0, 0, 10, 0, [49/50], 0,
        false⟩ : AState) 0 0 [(1600, 1)]).hue_stack).sum /
        (((process_core (⟨⟨[], Vibe.RAGE, 0⟩, 0, 0, 0, 0, 1, 1, 0, 0, 10, 0, [49/50], 0,
          false⟩ : AState) 0 0 [(1600, 1)]).hue_stack).length : ℚ) ∧
    (process_core (⟨⟨[], Vibe.RAGE, 0⟩, 0, 0, 0, 0, 1, 1, 0, 0, 10, 0, [49/50], 0,
      false⟩ : AState) 0 0 [(1600, 1)]).hue_stack.length ≤ 20 :=
  ⟨(hue_mean_and_capacity (⟨⟨[], Vibe.RAGE, 0⟩, 0, 0, 0, 0, 1, 1, 0, 0, 10, 0, [49/50], 0,
      false⟩ : AState) 0 0 [(1600, 1)]).1
    (by norm_num [process_core, drive, bass_avg, target_bri_of, peak_update,
      scale_brightness, clip, MAX_BRIGHTNESS]) (by norm_num),
   (hue_mean_and_capacity (⟨⟨[], Vibe.RAGE, 0⟩, 0, 0, 0, 0, 1, 1, 0, 0, 10, 0, [49/50], 0,
      false⟩ : AState) 0 0 [(1600, 1)]).2 (by norm_num)⟩

/-- Claim C8 counterexample: an empty audio block makes the FFT raise, the
callback swallows the exception and leaves the whole state unchanged -
including the running bass average, which processing a zero-energy block
would have decayed from 10 to 9.9.  The empty block therefore does not
degrade to zero band energies; it is skipped. -/
theorem empty_block_counterexample :
    audio_callback (⟨⟨[], Vibe.CHILL, 0⟩, 0, 0, 0, 0, 1, 1, 0, 0, 10, 0, [], 0,
      false⟩ : AState) 0 0 44100 [] =
      (⟨⟨[], Vibe.CHILL, 0⟩, 0, 0, 0, 0, 1, 1, 0, 0, 10, 0, [], 0, false⟩ : AState) ∧
    (process_core (⟨⟨[], Vibe.CHILL, 0⟩, 0, 0, 0, 0, 1, 1, 0, 0, 10, 0, [], 0,
      false⟩ : AState) 0 0 []).avg_bass = 99/10 ∧
    (audio_callback (⟨⟨[], Vibe.CHILL, 0⟩, 0, 0, 0, 0, 1, 1, 0, 0, 10, 0, [], 0,
      false⟩ : AState) 0 0 44100 []).avg_bass ≠
      (process_core (⟨⟨[], Vibe.CHILL, 0⟩, 0, 0, 0, 0, 1, 1, 0, 0, 10, 0, [], 0,
        false⟩ : AState) 0 0 []).avg_bass := by
  refine ⟨rfl, ?_, ?_⟩
  · norm_num [process_core, bass_avg]
  · norm_num [audio_callback, process_block, process_core, bass_avg]

/-- Claim C8 (amended): the audio callback never propagates an error: on an
empty block (where the FFT raises) it swallows the exception and leaves the
state unchanged, and on a nonempty block it runs the analysis, whose band
energies are zero whenever the band masks select no bins. -/
theorem analysis_fail_soft (s : AState) (now : ℚ) (n : ℕ) (rate : ℚ) (mag : List ℚ)
    (hov : s.override_mode = false) :
    (n = 0 → audio_callback s now n rate mag = s) ∧
    (n ≠ 0 → audio_callback s now n rate mag =
      process_core s now (e_bass_of n rate mag) (mid_bins_of n rate mag)) ∧
    (bass_bins_of n rate mag = [] → e_bass_of n rate mag = 0) := by
  refine ⟨?_, ?_, ?_⟩
  · intro hn
    unfold audio_callback process_block
    rw [hov, if_neg (by simp), if_pos hn]
  · intro hn
    unfold audio_callback process_block
    rw [hov, if_neg (by simp), if_neg hn]
  · intro hb
    rw [e_bass_of, if_neg (by simp [hb])]

theorem analysis_fail_soft_witness :
    audio_callback (⟨⟨[], Vibe.CHILL, 0⟩, 0, 0, 0, 0, 1, 1, 0, 0, 10, 0, [], 0,
      false⟩ : AState) 5 0 44100 [] =
      (⟨⟨[], Vibe.CHILL, 0⟩, 0, 0, 0, 0, 1, 1, 0, 0, 10, 0, [], 0, false⟩ : AState) ∧
    audio_callback (⟨⟨[], Vibe.CHILL, 0⟩, 0, 0, 0, 0, 1, 1, 0, 0, 10, 0, [], 0,
      false⟩ : AState) 5 2 44100 [1, 1] =
      process_core (⟨⟨[], Vibe.CHILL, 0⟩, 0, 0, 0, 0, 1, 1, 0, 0, 10, 0, [], 0,
        false⟩ : AState) 5 (e_bass_of 2 44100 [1, 1]) (mid_bins_of 2 44100 [1, 1]) ∧
    e_bass_of 2 44100 [1, 1] = 0 :=
  ⟨(analysis_fail_soft (⟨⟨[], Vibe.CHILL, 0⟩, 0, 0, 0, 0, 1, 1, 0, 0, 10, 0, [], 0,
      false⟩ : AState) 5 0 44100 [] rfl).1 rfl,
   (analysis_fail_soft (⟨⟨[], Vibe.CHILL, 0⟩, 0, 0, 0, 0, 1, 1, 0, 0, 10, 0, [], 0,
      false⟩ : AState) 5 2 44100 [1, 1] rfl).2.1 (by norm_num),
   (analysis_fail_soft (⟨⟨[], Vibe.CHILL, 0⟩, 0, 0, 0, 0, 1, 1, 0, 0, 10, 0, [], 0,
      false⟩ : AState) 5 2 44100 [1, 1] rfl).2.2
     (by norm_num [bass_bins_of, bins_of, band_filter, List.range_succ])⟩

/-- Claim C6 counterexample: the normalized envelopes are capped at
SENSITIVITY = 1.2 each, so a state with both bass and mid envelopes fully
saturated (1.2, driven by maximal input) has total energy 2.4, below the
2.5 climax threshold; with 3 s (more than the claimed 2 s minimum
interval) since the last strobe, process_audio still does not arm the
strobe - the code gates strobing on a chaos counter and a 5 s interval,
not on brightness saturation and 2 s. -/
theorem strobe_two_second_counterexample :
    env_bass_after (⟨6/5, 6/5, 6/5, 3/5, 3/5, 0, 0, false⟩ : FState) 100 = 6/5 ∧
    env_mid_after (⟨6/5, 6/5, 6/5, 3/5, 3/5, 0, 0, false⟩ : FState) [(1000, 100)] = 6/5 ∧
    (3 : ℚ) - (⟨6/5, 6/5, 6/5, 3/5, 3/5, 0, 0, false⟩ : FState).last_strobe > 2 ∧
    (fusion_process (⟨6/5, 6/5, 6/5, 3/5, 3/5, 0, 0, false⟩ : FState) 3 100 100
      [(1000, 100)]).strobe_active = false := by
  refine ⟨?_, ?_, by norm_num, ?_⟩
  · norm_num [env_bass_after, fusion_norm_bass, clip, SENSITIVITY, DECAY_RATE]
  · norm_num [env_mid_after, fusion_norm_mid, mid_raw, clip, SENSITIVITY, DECAY_RATE]
  · norm_num [fusion_process, chaos_after, env_bass_after, env_mid_after,
      fusion_norm_bass, fusion_norm_mid, mid_raw, clip, SENSITIVITY, DECAY_RATE]

/-- Claim C6 (amended): the strobe arms exactly when the updated chaos
counter (incremented on blocks whose bass + mid envelopes exceed 2.5, else
decremented toward 0) exceeds 5 and more than the 5 s minimum strobe
interval has elapsed since the previous strobe; arming stamps the strobe
time and resets the counter, and the render loop consumes an armed strobe
as exactly one pure-white frame, clearing the flag and emitting white only
when armed. -/
theorem strobe_arm_and_consume :
    (∀ (s : FState) (now eb eh : ℚ) (mb : List (ℚ × ℚ)),
      ((fusion_process s now eb eh mb).strobe_active = true ↔
        s.strobe_active = true ∨ (chaos_after s eb mb > 5 ∧ now - s.last_strobe > 5))) ∧
    (∀ (s : FState) (now eb eh : ℚ) (mb : List (ℚ × ℚ)),
      chaos_after s eb mb > 5 → now - s.last_strobe > 5 →
      (fusion_process s now eb eh mb).last_strobe = now ∧
      (fusion_process s now eb eh mb).chaos_counter = 0) ∧
    (∀ s : FState, s.strobe_active = true →
      led_tick s = (FCmd.white, { s with strobe_active := false })) ∧
    (∀ s : FState, s.strobe_active = false →
      (led_tick s).1 ≠ FCmd.white ∧ (led_tick s).2.strobe_active = false) := by
  refine ⟨?_, ?_, ?_, ?_⟩
  · intro s now eb eh mb
    unfold fusion_process
    split_ifs with h
    · exact iff_of_true rfl (Or.inr h)
    · constructor
      · exact fun hs => Or.inl hs
      · rintro (hs | hc)
        · exact hs
        · exact absurd hc h
  · intro s now eb eh mb h1 h2
    unfold fusion_process
    rw [if_pos ⟨h1, h2⟩]
    exact ⟨rfl, rfl⟩
  · intro s hs
    unfold led_tick
    rw [if_pos hs]
  · intro s hs
    unfold led_tick
    rw [if_neg (by simp [hs])]
    dsimp only
    constructor
    · split_ifs <;> simp
    · split_ifs <;> simp [hs]

theorem strobe_arm_and_consume_witness :
    (fusion_process (⟨3, 0, 0, 3/5, 3/5, 5, 0, false⟩ : FState) 10 0 0
      [(1000, 100)]).strobe_active = true ∧
    (fusion_process (⟨3, 0, 0, 3/5, 3/5, 5, 0, false⟩ : FState) 10 0 0
      [(1000, 100)]).last_strobe = 10 ∧
    (fusion_process (⟨3, 0, 0, 3/5, 3/5, 5, 0, false⟩ : FState) 10 0 0
      [(1000, 100)]).chaos_counter = 0 ∧
    led_tick (⟨0, 0, 0, 0, 0, 0, 0, true⟩ : FState) =
      (FCmd.white, (⟨0, 0, 0, 0, 0, 0, 0, false⟩ : FState)) ∧
    (led_tick (⟨0, 0, 0, 0, 0, 0, 0, false⟩ : FState)).1 ≠ FCmd.white ∧
    (led_tick (⟨0, 0, 0, 0, 0, 0, 0, false⟩ : FState)).2.strobe_active = false :=
  have harm : chaos_after (⟨3, 0, 0, 3/5, 3/5, 5, 0, false⟩ : FState) 0 [(1000, 100)] > 5 := by
    norm_num [chaos_after, env_bass_after, env_mid_after, fusion_norm_bass,
      fusion_norm_mid, mid_raw, clip, SENSITIVITY, DECAY_RATE]
  have h2 := strobe_arm_and_consume.2.1 (⟨3, 0, 0, 3/5, 3/5, 5, 0, false⟩ : FState)
    10 0 0 [(1000, 100)] harm (by norm_num)
  have h1 := (strobe_arm_and_consume.1 (⟨3, 0, 0, 3/5, 3/5, 5, 0, false⟩ : FState)
    10 0 0 [(1000, 100)]).mpr (Or.inr ⟨harm, by norm_num⟩)
  have h3 := strobe_arm_and_consume.2.2.1 (⟨0, 0, 0, 0, 0, 0, 0, true⟩ : FState) rfl
  have h4 := strobe_arm_and_consume.2.2.2 (⟨0, 0, 0, 0, 0, 0, 0, false⟩ : FState) rfl
  ⟨h1, h2.1, h2.2, h3, h4.1, h4.2⟩

theorem circDist_eq_abs (a b d : ℚ) (k : ℤ) (hk : a - b = d + k) (hd : |d| ≤ 1/2) :
    circDist a b = |d| := by
  have h0 : mod1 (a - b) = Int.fract (a - b) := rfl
  rcases abs_le.mp hd with ⟨hl, hr⟩
  have h1 : Int.fract (a - b) = Int.fract d := by rw [hk]; exact Int.fract_add_int d k
  rw [circDist, h0, h1]
  rcases le_or_lt 0 d with hpos | hneg
  · rw [Int.fract_eq_self.mpr ⟨hpos, by linarith⟩, abs_of_nonneg hpos]
    exact min_eq_left (by linarith)
  · have hf : Int.fract d = d + 1 := by
      have h2 : Int.fract (d + (1:ℤ)) = Int.fract d := Int.fract_add_int d 1
      have h3 : Int.fract (d + (1:ℤ)) = d + 1 := by
        push_cast
        exact Int.fract_eq_self.mpr ⟨by linarith, by linarith⟩
      rw [← h2, h3]
    rw [hf, abs_of_neg hneg]
    have h4 : 1 - (d + 1) = -d := by ring
    rw [h4]
    exact min_eq_right (by linarith)

theorem wrap_diff_spec (c t : ℚ) (hc0 : 0 ≤ c) (hc1 : c < 1) (ht0 : 0 ≤ t) (ht1 : t < 1) :
    |wrap_diff c t| ≤ 1/2 ∧ ∃ k : ℤ, t - c = wrap_diff c t + k := by
  unfold wrap_diff
  split_ifs with h1 h2
  · exact ⟨abs_le.mpr ⟨by linarith, by linarith⟩, ⟨1, by push_cast; ring⟩⟩
  · exact ⟨abs_le.mpr ⟨by linarith, by linarith⟩, ⟨-1, by push_cast; ring⟩⟩
  · exact ⟨abs_le.mpr ⟨by linarith, by linarith⟩, ⟨0, by push_cast; ring⟩⟩

theorem circDist_wrap (c t : ℚ) (hc0 : 0 ≤ c) (hc1 : c < 1) (ht0 : 0 ≤ t) (ht1 : t < 1) :
    circDist c t = |wrap_diff c t| := by
  obtain ⟨hd, k0, hk0⟩ := wrap_diff_spec c t hc0 hc1 ht0 ht1
  have heq : c - t = -(wrap_diff c t) + ((-k0 : ℤ) : ℚ) := by push_cast; linarith
  rw [circDist_eq_abs c t (-(wrap_diff c t)) (-k0) heq (by rwa [abs_neg]), abs_neg]

theorem hueStep_dist (f c t : ℚ) (hf0 : 0 ≤ f) (hf1 : f ≤ 1)
    (hc0 : 0 ≤ c) (hc1 : c < 1) (ht0 : 0 ≤ t) (ht1 : t < 1) :
    circDist (hueStep f c t) t = (1 - f) * circDist c t ∧
    circDist (hueStep f c t) c = f * circDist c t := by
  obtain ⟨hd, k0, hk0⟩ := wrap_diff_spec c t hc0 hc1 ht0 ht1
  have hct := circDist_wrap c t hc0 hc1 ht0 ht1
  have hstep : hueStep f c t = c + wrap_diff c t * f - ⌊c + wrap_diff c t * f⌋ := rfl
  set m : ℤ := ⌊c + wrap_diff c t * f⌋ with hm
  constructor
  · have heq : hueStep f c t - t =
        -((1 - f) * wrap_diff c t) + ((-k0 - m : ℤ) : ℚ) := by
      rw [hstep]; push_cast; linear_combination -hk0
    have hb : |(-((1 - f) * wrap_diff c t))| ≤ 1/2 := by
      rw [abs_neg, abs_mul, abs_of_nonneg (by linarith : (0:ℚ) ≤ 1 - f)]
      nlinarith [abs_nonneg (wrap_diff c t)]
    rw [circDist_eq_abs (hueStep f c t) t (-((1 - f) * wrap_diff c t)) (-k0 - m) heq hb,
      abs_neg, abs_mul, abs_of_nonneg (by linarith : (0:ℚ) ≤ 1 - f), hct]
  · have heq : hueStep f c t - c = f * wrap_diff c t + ((-m : ℤ) : ℚ) := by
      rw [hstep]; push_cast; ring
    have hb : |f * wrap_diff c t| ≤ 1/2 := by
      rw [abs_mul, abs_of_nonneg hf0]
      nlinarith [abs_nonneg (wrap_diff c t)]
    rw [circDist_eq_abs (hueStep f c t) c (f * wrap_diff c t) (-m) heq hb,
      abs_mul, abs_of_nonneg hf0, hct]

theorem hueStep_mem (f c t : ℚ) : 0 ≤ hueStep f c t ∧ hueStep f c t < 1 :=
  ⟨Int.fract_nonneg (c + wrap_diff c t * f), Int.fract_lt_one (c + wrap_diff c t * f)⟩

theorem hueIter_dist (f t : ℚ) (hf0 : 0 ≤ f) (hf1 : f ≤ 1) (ht0 : 0 ≤ t) (ht1 : t < 1) :
    ∀ (n : ℕ) (c : ℚ), 0 ≤ c → c < 1 →
      circDist (hueIter f t n c) t = (1 - f) ^ n * circDist c t := by
  intro n
  induction n with
  | zero => intro c _ _; simp [hueIter]
  | succ n ih =>
      intro c hc0 hc1
      have hs := hueStep_mem f c t
      have hstep := hueStep_dist f c t hf0 hf1 hc0 hc1 ht0 ht1
      calc circDist (hueIter f t (n + 1) c) t
          = circDist (hueIter f t n (hueStep f c t)) t := rfl
        _ = (1 - f) ^ n * circDist (hueStep f c t) t := ih (hueStep f c t) hs.1 hs.2
        _ = (1 - f) ^ n * ((1 - f) * circDist c t) := by rw [hstep.1]
        _ = (1 - f) ^ (n + 1) * circDist c t := by ring

theorem circDist_bounds (c t : ℚ) (hc0 : 0 ≤ c) (hc1 : c < 1) (ht0 : 0 ≤ t) (ht1 : t < 1) :
    0 ≤ circDist c t ∧ circDist c t ≤ 1/2 := by
  obtain ⟨hd, _⟩ := wrap_diff_spec c t hc0 hc1 ht0 ht1
  rw [circDist_wrap c t hc0 hc1 ht0 ht1]
  exact ⟨abs_nonneg _, hd⟩

/-- Claim C5: one render tick moves the current hue along the shortest
circular path: the step taken is exactly the smoothing fraction of the
shortest circular distance to the target (hence never more), the remaining
distance contracts by the factor (1 - f), and with a constant target the
current hue converges below any positive ε within a bounded number of
ticks.  `f = 1/50` is audio_sync.py's 0.02 fraction and `f = 1/20` is
audio_sync_fusion.py's 0.05. -/
theorem hue_step_convergence (f c t : ℚ) (hf0 : 0 < f) (hf1 : f ≤ 1)
    (hc0 : 0 ≤ c) (hc1 : c < 1) (ht0 : 0 ≤ t) (ht1 : t < 1) :
    circDist (hueStep f c t) c = f * circDist c t ∧
    circDist (hueStep f c t) t = (1 - f) * circDist c t ∧
    ∀ ε : ℚ, 0 < ε → ∃ N : ℕ, ∀ n : ℕ, N ≤ n → circDist (hueIter f t n c) t ≤ ε := by
  have hstep := hueStep_dist f c t (le_of_lt hf0) hf1 hc0 hc1 ht0 ht1
  refine ⟨hstep.2, hstep.1, ?_⟩
  intro ε hε
  obtain ⟨N, hN⟩ := exists_pow_lt_of_lt_one hε (show 1 - f < 1 by linarith)
  refine ⟨N, fun n hn => ?_⟩
  rw [hueIter_dist f t (le_of_lt hf0) hf1 ht0 ht1 n c hc0 hc1]
  have hb := circDist_bounds c t hc0 hc1 ht0 ht1
  have h1 : (1 - f) ^ n ≤ (1 - f) ^ N :=
    pow_le_pow_of_le_one (by linarith) (by linarith) hn
  have h2 : (0:ℚ) ≤ (1 - f) ^ n := pow_nonneg (by linarith) n
  calc (1 - f) ^ n * circDist c t ≤ (1 - f) ^ n * 1 := by nlinarith
    _ = (1 - f) ^ n := mul_one _
    _ ≤ (1 - f) ^ N := h1
    _ ≤ ε := le_of_lt hN

theorem hue_step_convergence_witness :
    circDist (hueStep (1/50) 0 (1/4)) 0 = (1/50) * circDist 0 (1/4) ∧
    circDist (hueStep (1/50) 0 (1/4)) (1/4) = (1 - 1/50) * circDist 0 (1/4) :=
  have h := hue_step_convergence (1/50) 0 (1/4) (by norm_num) (by norm_num)
    (by norm_num) (by norm_num) (by norm_num) (by norm_num)
  ⟨h.1, h.2.1⟩

theorem hue_frozen_when_bright_witness :
    (process_core (⟨⟨[], Vibe.CHILL, 0⟩, 0, 0, 0, 0, 1, 1, 0, 0, 10, 0, [], 0,
      false⟩ : AState) 0 100 []).target_hue = 0 ∧
    (process_core (⟨⟨[], Vibe.CHILL, 0⟩, 0, 0, 0, 0, 1, 1, 0, 0, 10, 0, [], 0,
      false⟩ : AState) 0 100 []).hue_stack = [] :=
  hue_frozen_when_bright
    (⟨⟨[], Vibe.CHILL, 0⟩, 0, 0, 0, 0, 1, 1, 0, 0, 10, 0, [], 0, false⟩ : AState) 0 100 []
    (by norm_num [process_core, drive, bass_avg, target_bri_of, peak_update,
      scale_brightness, clip, MAX_BRIGHTNESS])
